import Mathlib

/-!
Shallow embedding of `src/formatting/markdown_formatter.py` from the
a-share-mcp repository: the tabular report formatter with dynamic
truncation (`format_df_to_markdown` and `_calculate_dynamic_max_rows`),
together with proofs of the specification claims about it.

Python semantics that matter here and are modelled explicitly:
  * `df.empty` is true when any axis has length zero;
  * `df.head(n)` / `df.tail(n)` and list slices follow Python slicing,
    including negative arguments and the `xs[-0:] = xs` quirk;
  * `//` is floor division (`Int.fdiv`), `int(x * 250 / 365)` truncates
    toward zero (`Int.tdiv`; the float division is exact enough that the
    two agree on all reachable magnitudes);
  * exceptions are modelled with `Except`: the condition
    `"date" in df.columns and is_datetime... or isinstance(df["date"].iloc[0], str)`
    parses as `(A and B) or C`, so when `date` is absent the right
    disjunct is still evaluated and `df["date"]` raises `KeyError`.
-/

namespace AShare

/-- A scalar cell value of the tabular dataset. `vDate` is a
datetime64 value measured in whole days. -/
inductive Value where
  | vStr (s : String)
  | vInt (n : Int)
  | vDate (d : Int)
deriving DecidableEq, Repr

/-- The pandas dtype of a column, as far as the formatter inspects it
(`pd.api.types.is_datetime64_any_dtype`). -/
inductive Dtype where
  | datetime64
  | objectDtype
deriving DecidableEq, Repr

/-- A two-dimensional labeled dataset: named columns with a dtype each,
and rows of cell values (each row has one value per column in a
well-formed frame). -/
structure DataFrame where
  colNames : List String
  colDtypes : List Dtype
  rows : List (List Value)
deriving DecidableEq, Repr

/-- Exceptions that the embedded code can raise. -/
inductive PyErr where
  | keyError (k : String)
  | indexError
deriving DecidableEq, Repr

namespace DataFrame

def nrows (df : DataFrame) : Nat := df.rows.length

def ncols (df : DataFrame) : Nat := df.colNames.length

/-- `df.empty`: true iff any axis has length 0. -/
def empty (df : DataFrame) : Bool := df.rows.isEmpty || df.colNames.isEmpty

end DataFrame

/-- `isinstance(v, str)`. -/
def isStr : Value → Bool
  | .vStr _ => true
  | _ => false

/-- `df[name]` column values (first column with that name). -/
def columnVals (df : DataFrame) (name : String) : List Value :=
  match df.colNames.indexOf? name with
  | none => []
  | some i => df.rows.filterMap (fun r => r.get? i)

/-- dtype of the first column with the given name, if present. -/
def dtypeOf (df : DataFrame) (name : String) : Option Dtype :=
  ((df.colNames.zip df.colDtypes).find? (fun p => p.1 == name)).map (·.2)

/-- Python list slicing `xs[:n]` (`df.head(n)`): a nonnegative bound takes
the first `n` elements; a negative bound drops the last `|n|`. -/
def pyHead (n : Int) (xs : List α) : List α :=
  if 0 ≤ n then xs.take n.toNat else xs.take (xs.length - (-n).toNat)

/-- `df.tail(n)`: pandas returns the empty frame for `n = 0`, the last
`n` rows for `n > 0` (`xs[-n:]`), and drops the first `|n|` for `n < 0`. -/
def pyTail (n : Int) (xs : List α) : List α :=
  if n = 0 then []
  else if 0 < n then xs.drop (xs.length - n.toNat)
  else xs.drop (-n).toNat

/-- Python slice `xs[i:]`, including negative indices: `xs[-0:]` is the
whole list because `-0 = 0`. -/
def pySliceFrom (i : Int) (xs : List α) : List α :=
  if 0 ≤ i then xs.drop i.toNat else xs.drop (xs.length - (-i).toNat)

/-- Python truthiness of an optional string (`None` and `""` are falsy). -/
def truthy : Option String → Bool
  | none => false
  | some s => !s.isEmpty

/-- Gregorian leap year. -/
def isLeapYear (y : Nat) : Bool :=
  y % 4 == 0 && (y % 100 != 0 || y % 400 == 0)

def daysInMonth (y m : Nat) : Nat :=
  if m = 2 then (if isLeapYear y then 29 else 28)
  else if m = 4 ∨ m = 6 ∨ m = 9 ∨ m = 11 then 30
  else 31

/-- Day number of a civil date (days since 0000-03-01, standard
days-from-civil algorithm); only differences of day numbers are used. -/
def daysFromCivil (y m d : Nat) : Nat :=
  let y'  := if m ≤ 2 then y - 1 else y
  let era := y' / 400
  let yoe := y' % 400
  let mp  := if 2 < m then m - 3 else m + 9
  let doy := (153 * mp + 2) / 5 + d - 1
  let doe := yoe * 365 + yoe / 4 - yoe / 100 + doy
  era * 146097 + doe

/-- Splits a character list at every dash, keeping empty fields. -/
def splitDash : List Char → List (List Char)
  | [] => [[]]
  | c :: rest =>
    if c = '-' then [] :: splitDash rest
    else
      match splitDash rest with
      | h :: t => (c :: h) :: t
      | [] => [[c]]

/-- A nonempty all-digit character list read as a decimal number. -/
def digitsToNat : List Char → Option Nat
  | [] => none
  | cs =>
    if cs.all (fun c => c.isDigit) then
      some (cs.foldl (fun acc c => acc * 10 + (c.toNat - 48)) 0)
    else none

/-- Parsing of a `YYYY-MM-DD` date string, as `datetime.strptime(s, "%Y-%m-%d")`
and `pd.to_datetime` behave on the inputs the formatter receives: three
dash-separated decimal fields forming a valid calendar date. Returns the
day number. -/
def parseDateYMD (s : String) : Option Int :=
  match splitDash s.data with
  | [ys, ms, ds] =>
    match digitsToNat ys, digitsToNat ms, digitsToNat ds with
    | some y, some m, some d =>
      if 1 ≤ y ∧ 1 ≤ m ∧ m ≤ 12 ∧ 1 ≤ d ∧ d ≤ daysInMonth y m then
        some (daysFromCivil y m d)
      else none
    | _, _, _ => none
  | _ => none

/-- `pd.to_datetime` on one series element: a string is parsed as a date,
a datetime value passes through, anything else fails. -/
def parseSeriesVal : Value → Option Int
  | .vStr s => parseDateYMD s
  | .vDate d => some d
  | .vInt _ => none

/-- Applies `f` to every element; `none` as soon as one application fails
(the whole `pd.to_datetime(series)` call raises). -/
def mapAllSome (f : α → Option β) : List α → Option (List β)
  | [] => some []
  | x :: xs =>
    match f x, mapAllSome f xs with
    | some y, some ys => some (y :: ys)
    | _, _ => none

/-- `MAX_MARKDOWN_ROWS = 250`. -/
def MAX_MARKDOWN_ROWS : Int := 250

/-- `MAX_MARKDOWN_COLS = 12` (the default column cap in the source). -/
def MAX_MARKDOWN_COLS : Int := 12

/-- The body of the `try` block of the date-column tier of
`_calculate_dynamic_max_rows`: parse the `date` column, estimate trading
days from its span, clamp to `[50, MAX_MARKDOWN_ROWS]`.  Any internal
failure is caught by the `except` and control falls past the `if`/`elif`
to the final `return MAX_MARKDOWN_ROWS`. -/
def dateColumnTier (df : DataFrame) : Int :=
  match mapAllSome parseSeriesVal (columnVals df "date") with
  | some (d :: ds) =>
    let mn := ds.foldl min d
    let mx := ds.foldl max d
    let estimated_trading_days := ((mx - mn) * 250).tdiv 365 + 1
    max 50 (min MAX_MARKDOWN_ROWS estimated_trading_days)
  | some [] => MAX_MARKDOWN_ROWS
  | none => MAX_MARKDOWN_ROWS

/-- The `elif start_date and end_date` tier: `strptime` both bounds and
estimate from their difference in days; a parse failure is caught and
control falls to the final `return MAX_MARKDOWN_ROWS`, as does a falsy
(`None` or empty) bound. -/
def dateRangeTier (start_date end_date : Option String) : Int :=
  if truthy start_date && truthy end_date then
    match parseDateYMD (start_date.getD ""), parseDateYMD (end_date.getD "") with
    | some s, some e =>
      let estimated_trading_days := ((e - s) * 250).tdiv 365 + 1
      max 50 (min MAX_MARKDOWN_ROWS estimated_trading_days)
    | _, _ => MAX_MARKDOWN_ROWS
  else MAX_MARKDOWN_ROWS

/-- `_calculate_dynamic_max_rows`.  The guard of the first branch is
`("date" in df.columns and is_datetime64_any_dtype(df["date"])) or
isinstance(df["date"].iloc[0], str)`: when the left conjunction is false
the right disjunct is evaluated, so a frame without a `date` column makes
`df["date"]` raise `KeyError`, and a `date` column with no rows makes
`.iloc[0]` raise `IndexError`. -/
def calculate_dynamic_max_rows (df : DataFrame)
    (start_date end_date : Option String) : Except PyErr Int :=
  if df.colNames.contains "date" && (dtypeOf df "date" == some Dtype.datetime64) then
    Except.ok (dateColumnTier df)
  else if df.colNames.contains "date" then
    match (columnVals df "date").head? with
    | none => Except.error PyErr.indexError
    | some v =>
      if isStr v then Except.ok (dateColumnTier df)
      else Except.ok (dateRangeTier start_date end_date)
  else Except.error (PyErr.keyError "date")

/-- Row truncation step of `format_df_to_markdown`: when the frame has
more rows than `max_rows`, keep `df.head(max_rows // 2)` followed by
`df.tail(max_rows - max_rows // 2)` and record the truncation note. -/
def rowTruncate (df : DataFrame) (max_rows : Int) : DataFrame × List String :=
  if (df.nrows : Int) > max_rows then
    ({ df with rows :=
         pyHead (max_rows.fdiv 2) df.rows ++
         pyTail (max_rows - max_rows.fdiv 2) df.rows },
     ["rows truncated to " ++ toString max_rows ++
      " (from " ++ toString df.nrows ++ ")"])
  else (df, [])

/-- `df_display[cols_to_show]` for a selection that is a subsequence of
the column list: keep the columns (with their dtypes and row entries)
whose name satisfies `p`. -/
def selectColsBy (df : DataFrame) (p : String → Bool) : DataFrame :=
  { colNames := df.colNames.filter p
    colDtypes := ((df.colNames.zip df.colDtypes).filter (fun x => p x.1)).map (·.2)
    rows := df.rows.map (fun r => ((df.colNames.zip r).filter (fun x => p x.1)).map (·.2)) }

/-- Column truncation step: when the frame has more columns than
`max_cols`, keep `columns[:max_cols // 2] + columns[-(max_cols - max_cols // 2):]`,
deduplicated and sorted by original column position (for distinct column
names this is exactly the order filter of the original column list), and
record the truncation note with the kept count. -/
def colTruncate (df : DataFrame) (max_cols : Int) : DataFrame × List String :=
  if (df.ncols : Int) > max_cols then
    let preCols := pyHead (max_cols.fdiv 2) df.colNames
    let sufCols := pySliceFrom (-(max_cols - max_cols.fdiv 2)) df.colNames
    let keep := fun c => (preCols ++ sufCols).contains c
    let kept := df.colNames.filter keep
    (selectColsBy df keep,
     ["columns truncated to " ++ toString kept.length ++
      " (from " ++ toString df.ncols ++ ")"])
  else (df, [])

/-- The (possibly row- and column-truncated) frame handed to the
renderer. -/
def displayedDf (df : DataFrame) (max_rows max_cols : Int) : DataFrame :=
  (colTruncate (rowTruncate df max_rows).1 max_cols).1

/-- The truncation notes, in rows-then-columns order. -/
def truncNotes (df : DataFrame) (max_rows max_cols : Int) : List String :=
  (rowTruncate df max_rows).2 ++ (colTruncate (rowTruncate df max_rows).1 max_cols).2

/-- The part of `format_df_to_markdown` after `max_rows` is resolved:
truncate, render (`df_display.to_markdown(index=False)`, abstracted as
the fallible `render` argument whose `none` models a raised exception),
and prepend the truncation annotation.  A render failure yields the
fixed sentinel string. -/
def formatResolved (render : DataFrame → Option String) (df : DataFrame)
    (max_rows max_cols : Int) : String :=
  let d := displayedDf df max_rows max_cols
  let notes := truncNotes df max_rows max_cols
  match render d with
  | none => "Error: Could not format data into Markdown table."
  | some markdown_table =>
    if notes.isEmpty then markdown_table
    else "Note: Data truncated (" ++ String.intercalate "; " notes ++
         ").\n\n" ++ markdown_table

/-- `format_df_to_markdown(df, max_rows, max_cols, start_date, end_date)`.
`render` abstracts the `to_markdown` library call.  The result is
`Except` because `_calculate_dynamic_max_rows` can raise (and that
exception is not caught by the function). -/
def format_df_to_markdown (render : DataFrame → Option String) (df : DataFrame)
    (max_rows : Option Int) (max_cols : Int)
    (start_date end_date : Option String) : Except PyErr String :=
  if df.empty then Except.ok "(No data available to display)"
  else
    match (match max_rows with
           | none => calculate_dynamic_max_rows df start_date end_date
           | some m => Except.ok m) with
    | Except.error e => Except.error e
    | Except.ok mr => Except.ok (formatResolved render df mr max_cols)

/-- A call of `format_df_to_markdown` that leaves `max_cols` at its
declaration-site default `MAX_MARKDOWN_COLS`. -/
def format_df_to_markdown_defaults (render : DataFrame → Option String)
    (df : DataFrame) (max_rows : Option Int)
    (start_date end_date : Option String) : Except PyErr String :=
  format_df_to_markdown render df max_rows MAX_MARKDOWN_COLS start_date end_date

/-- A renderer that always succeeds with a fixed table body. -/
def constRenderT : DataFrame → Option String := fun _ => some "T"

/-- A renderer that always fails (models `to_markdown` raising). -/
def noneRender : DataFrame → Option String := fun _ => none

/-- One-row frame without a `date` column. -/
def dfNoDateCol : DataFrame := ⟨["close"], [Dtype.objectDtype], [[Value.vInt 1]]⟩

/-- One-row frame whose `date` column holds a single parseable date string. -/
def dfOneRowDate : DataFrame :=
  ⟨["date"], [Dtype.objectDtype], [[Value.vStr "2024-01-01"]]⟩

/-- Frame whose `date` column holds an unparseable string. -/
def dfBadDate : DataFrame :=
  ⟨["date"], [Dtype.objectDtype], [[Value.vStr "not-a-date"]]⟩

/-- Frame whose `date` column is numeric: the date-column branch is not
entered because the dtype is not datetime64 and the first value is not a
string. -/
def dfIntDate : DataFrame := ⟨["date"], [Dtype.objectDtype], [[Value.vInt 7]]⟩

/-- Datetime-typed `date` column spanning 365 days. -/
def dfDatetime : DataFrame :=
  ⟨["date"], [Dtype.datetime64], [[Value.vDate 0], [Value.vDate 365]]⟩

/-- Fifteen distinct columns, one row. -/
def dfWide15 : DataFrame :=
  ⟨(List.range 15).map (fun i => "c" ++ toString i),
   List.replicate 15 Dtype.objectDtype,
   [(List.range 15).map (fun i => Value.vInt i)]⟩

/-- Six rows, one column. -/
def dfSixRows : DataFrame :=
  ⟨["a"], [Dtype.objectDtype], (List.range 6).map (fun i => [Value.vInt i])⟩

/-- Two entirely empty rows and no columns (pandas shape `(2, 0)`). -/
def dfNoCols : DataFrame := ⟨[], [], [[], []]⟩

/-- One-column frame with zero rows. -/
def dfZeroRows : DataFrame := ⟨["a"], [Dtype.objectDtype], []⟩

theorem natCast_fdiv_two (m : Nat) : ((m : Int)).fdiv 2 = ((m / 2 : Nat) : Int) := by
  rw [Int.fdiv_eq_ediv _ (by norm_num : (0:Int) ≤ 2)]
  omega

theorem pyHead_natCast {α : Type} (n : Nat) (xs : List α) :
    pyHead (n : Int) xs = xs.take n := by
  unfold pyHead
  rw [if_pos (Int.natCast_nonneg n)]
  simp

theorem pyTail_natCast_pos {α : Type} (n : Nat) (hn : 0 < n) (xs : List α) :
    pyTail (n : Int) xs = xs.drop (xs.length - n) := by
  have h0 : ((n : Int)) ≠ 0 := by omega
  have h1 : (0 : Int) < (n : Int) := by omega
  unfold pyTail
  rw [if_neg h0, if_pos h1]
  simp

theorem pySliceFrom_neg_natCast {α : Type} (n : Nat) (hn : 0 < n) (xs : List α) :
    pySliceFrom (-(n : Int)) xs = xs.drop (xs.length - n) := by
  have h0 : ¬ (0 ≤ -(n : Int)) := by omega
  unfold pySliceFrom
  rw [if_neg h0]
  simp

theorem colTruncate_fst_nrows (df : DataFrame) (mc : Int) :
    ((colTruncate df mc).1).nrows = df.nrows := by
  unfold colTruncate
  split <;> simp [selectColsBy, DataFrame.nrows]

/-- For a duplicate-free list, keeping exactly the elements of a prefix
and a suffix by an order-preserving filter returns that prefix and
suffix. -/
theorem filter_contains_take_drop {α : Type} [DecidableEq α] (l : List α) (hnd : l.Nodup)
    (a d : Nat) (had : a ≤ d) :
    l.filter (fun x => (l.take a ++ l.drop d).contains x) = l.take a ++ l.drop d := by
  have hdis_ad : List.Disjoint (l.take a) (l.drop a) := List.disjoint_take_drop hnd le_rfl
  have hdis_dd : List.Disjoint (l.take d) (l.drop d) := List.disjoint_take_drop hnd le_rfl
  have e1 : l.take a ++ (l.take d).drop a = l.take d := by
    have h := List.take_append_drop a (l.take d)
    rwa [List.take_take, min_eq_left had] at h
  have hfa : (l.take a).filter (fun x => (l.take a ++ l.drop d).contains x) = l.take a :=
    List.filter_eq_self.mpr (fun x hx => by
      simp only [List.contains, List.elem_eq_mem, List.mem_append, decide_eq_true_eq]
      exact Or.inl hx)
  have hfm : ((l.take d).drop a).filter (fun x => (l.take a ++ l.drop d).contains x) = [] :=
    List.filter_eq_nil_iff.mpr (fun x hx => by
      have hx1 : x ∈ l.take d := List.mem_of_mem_drop hx
      have hx2 : x ∈ l.drop a := by
        rw [List.drop_take] at hx
        exact List.mem_of_mem_take hx
      have hn1 : x ∉ l.take a := fun hmem => hdis_ad hmem hx2
      have hn2 : x ∉ l.drop d := fun hmem => hdis_dd hx1 hmem
      simp only [List.contains, List.elem_eq_mem, List.mem_append, decide_eq_true_eq]
      simp [hn1, hn2])
  have hfd : (l.drop d).filter (fun x => (l.take a ++ l.drop d).contains x) = l.drop d :=
    List.filter_eq_self.mpr (fun x hx => by
      simp only [List.contains, List.elem_eq_mem, List.mem_append, decide_eq_true_eq]
      exact Or.inr hx)
  have htake : (l.take d).filter (fun x => (l.take a ++ l.drop d).contains x) = l.take a := by
    calc (l.take d).filter (fun x => (l.take a ++ l.drop d).contains x)
        = (l.take a ++ (l.take d).drop a).filter
            (fun x => (l.take a ++ l.drop d).contains x) := by rw [e1]
      _ = (l.take a).filter (fun x => (l.take a ++ l.drop d).contains x) ++
          ((l.take d).drop a).filter (fun x => (l.take a ++ l.drop d).contains x) :=
            List.filter_append _ _
      _ = l.take a := by rw [hfa, hfm, List.append_nil]
  calc l.filter (fun x => (l.take a ++ l.drop d).contains x)
      = (l.take d ++ l.drop d).filter (fun x => (l.take a ++ l.drop d).contains x) := by
        rw [List.take_append_drop]
    _ = (l.take d).filter (fun x => (l.take a ++ l.drop d).contains x) ++
        (l.drop d).filter (fun x => (l.take a ++ l.drop d).contains x) :=
          List.filter_append _ _
    _ = l.take a ++ l.drop d := by rw [htake, hfd]


/-- C1: the claim says `format_df_to_markdown` never propagates an
exception and that, with `max_rows` absent and no `date` column, the
dynamic row-budget computation falls through to a later estimation tier.
In the code the branch guard parses as `(A and B) or C`, so the missing
`date` column is dereferenced and `KeyError` propagates to the caller:
on a one-row frame without a `date` column the call raises instead of
returning text. -/
theorem C1_missing_date_column_raises :
    format_df_to_markdown constRenderT dfNoDateCol none 12 none none
      = Except.error (PyErr.keyError "date") := rfl

/-- C2 counterexample: on a frame whose `date` column holds the single
value `2024-01-01` (span 0 days, one actual row) the dynamic budget is
50, which exceeds the actual row count 1 — the claimed clamp
`min(actual_row_count, …)` does not exist in the code. -/
theorem C2_cex_budget_exceeds_rows :
    calculate_dynamic_max_rows dfOneRowDate none none = Except.ok 50 ∧
    dfOneRowDate.nrows = 1 := ⟨rfl, rfl⟩

/-- C2 amended: when `max_rows` is absent and the frame has a
datetime-typed `date` column whose values all convert (at least one
value), the dynamic budget is `max(50, min(250, trunc(span*250/365)+1))`
computed from the column span only — it is not capped to the actual row
count of the frame. -/
theorem C2_amended_date_tier_budget (df : DataFrame) (sd ed : Option String)
    (h1 : df.colNames.contains "date" = true)
    (h2 : dtypeOf df "date" = some Dtype.datetime64)
    (d : Int) (ds : List Int)
    (h3 : mapAllSome parseSeriesVal (columnVals df "date") = some (d :: ds)) :
    calculate_dynamic_max_rows df sd ed =
      Except.ok (max 50 (min 250
        ((((ds.foldl max d) - (ds.foldl min d)) * 250).tdiv 365 + 1))) := by
  unfold calculate_dynamic_max_rows
  simp only [h1, h2, dateColumnTier, h3, MAX_MARKDOWN_ROWS]
  simp

/-- C2 amended, witness: a datetime `date` column spanning 365 days gives
budget `max(50, min(250, 251)) = 250`. -/
theorem C2_amended_date_tier_budget_witness :
    calculate_dynamic_max_rows dfDatetime none none = Except.ok 250 := by
  have h := C2_amended_date_tier_budget dfDatetime none none rfl rfl 0 [365] rfl
  rw [h]
  rfl

/-- C3 counterexample: with `max_rows` absent, a `date` column whose
string value does not parse, and both `start_date` and `end_date`
supplied (span 9 days, so the date-range rule would give 50), the code
returns the default 250: a failure in the date-column tier falls past
the `elif` directly to the default, never reaching the date-range rule. -/
theorem C3_cex_parse_failure_falls_to_default :
    calculate_dynamic_max_rows dfBadDate (some "2024-01-01") (some "2024-01-10")
      = Except.ok 250 ∧
    max 50 (min 250 (((9 : Int) * 250).tdiv 365 + 1)) = 50 :=
  ⟨rfl, by decide⟩

/-- C3 amended: the date-range rule
`max(50, min(250, trunc(span_days*250/365)+1))` applies exactly when
`max_rows` is absent, the frame has a `date` column that is neither
datetime-typed nor string-valued in its first entry, and both bounds are
nonempty and parse as `YYYY-MM-DD`; a failure inside the date-column
tier instead falls directly to the default 250, and a frame with no
`date` column at all raises `KeyError`. -/
theorem C3_amended_range_tier_budget (df : DataFrame) (sd ed : String)
    (h1 : df.colNames.contains "date" = true)
    (h2 : ¬ dtypeOf df "date" = some Dtype.datetime64)
    (v : Value) (h3 : (columnVals df "date").head? = some v)
    (h4 : isStr v = false)
    (hsd : sd ≠ "") (hed : ed ≠ "")
    (a b : Int) (ha : parseDateYMD sd = some a) (hb : parseDateYMD ed = some b) :
    calculate_dynamic_max_rows df (some sd) (some ed) =
      Except.ok (max 50 (min 250 (((b - a) * 250).tdiv 365 + 1))) := by
  unfold calculate_dynamic_max_rows
  have h2' : (dtypeOf df "date" == some Dtype.datetime64) = false := by
    simp [h2]
  have hsd' : sd.isEmpty = false := by
    cases h : sd.isEmpty
    · rfl
    · exact absurd ((String.isEmpty_iff sd).mp h) hsd
  have hed' : ed.isEmpty = false := by
    cases h : ed.isEmpty
    · rfl
    · exact absurd ((String.isEmpty_iff ed).mp h) hed
  simp only [h1, h2', Bool.and_false, Bool.false_eq_true, if_false, h3, h4]
  simp only [dateRangeTier, truthy, MAX_MARKDOWN_ROWS]
  simp [hsd', hed', ha, hb]

/-- C3 amended, witness: a numeric `date` column with bounds
2024-01-01 and 2024-12-31 (span 365 days) gives budget 250 through the
date-range rule. -/
theorem C3_amended_range_tier_budget_witness :
    calculate_dynamic_max_rows dfIntDate (some "2024-01-01") (some "2024-12-31")
      = Except.ok 250 := by
  have h := C3_amended_range_tier_budget dfIntDate "2024-01-01" "2024-12-31"
    rfl (by decide) (Value.vInt 7) rfl rfl (by decide) (by decide)
    739191 739556 rfl rfl
  rw [h]
  rfl

/-- C4 counterexample: the default column cap is `MAX_MARKDOWN_COLS = 12`,
not 20: a 15-column frame formatted without an explicit `max_cols` is
column-truncated to 12, while a cap of 20 would have left it whole. -/
theorem C4_cex_default_cap_truncates_15_cols :
    MAX_MARKDOWN_COLS ≠ 20 ∧
    format_df_to_markdown_defaults constRenderT dfWide15 (some 5) none none
      = Except.ok "Note: Data truncated (columns truncated to 12 (from 15)).\n\nT" :=
  ⟨by decide, rfl⟩

/-- C4 amended: when the caller does not supply `max_cols`, the default
cap applied is `MAX_MARKDOWN_COLS`, whose value is 12. -/
theorem C4_amended_default_cap_is_12 :
    (∀ (render : DataFrame → Option String) (df : DataFrame)
       (max_rows : Option Int) (sd ed : Option String),
       format_df_to_markdown_defaults render df max_rows sd ed
         = format_df_to_markdown render df max_rows 12 sd ed) ∧
    MAX_MARKDOWN_COLS = 12 :=
  ⟨fun _ _ _ _ _ => rfl, rfl⟩

/-- C5: every frame with zero rows formats to exactly
`"(No data available to display)"`, whatever the other parameters; the
emptiness test precedes every row/column computation, so no truncation
note or table is ever produced for it. -/
theorem C5_zero_rows_sentinel (render : DataFrame → Option String) (df : DataFrame)
    (max_rows : Option Int) (max_cols : Int) (sd ed : Option String)
    (h : df.rows = []) :
    format_df_to_markdown render df max_rows max_cols sd ed
      = Except.ok "(No data available to display)" := by
  unfold format_df_to_markdown
  simp [DataFrame.empty, h]

/-- C5 witness: a concrete zero-row frame. -/
theorem C5_zero_rows_sentinel_witness :
    format_df_to_markdown constRenderT dfZeroRows (some 3) 12 none none
      = Except.ok "(No data available to display)" :=
  C5_zero_rows_sentinel constRenderT dfZeroRows (some 3) 12 none none rfl

/-- C6: with an effective positive row budget `m`, a frame with more
than `m` rows is displayed as the first `m / 2` rows followed by the
last `m - m / 2` rows (no gap marker), exactly `m` data rows survive
into the displayed frame, and the note
`"rows truncated to {m} (from {R})"` is recorded; a frame with at most
`m` rows is passed through unchanged with no row note. -/
theorem C6_row_truncation_policy (df : DataFrame) (m : Nat) (mc : Int) (hm : 0 < m) :
    (m < df.nrows →
      (rowTruncate df (m : Int)).1.rows
          = df.rows.take (m / 2) ++ df.rows.drop (df.nrows - (m - m / 2)) ∧
      (rowTruncate df (m : Int)).1.nrows = m ∧
      (displayedDf df (m : Int) mc).nrows = m ∧
      ("rows truncated to " ++ toString ((m : Int)) ++
       " (from " ++ toString df.nrows ++ ")")
          ∈ truncNotes df (m : Int) mc) ∧
    (df.nrows ≤ m → rowTruncate df (m : Int) = (df, [])) := by
  have hq := natCast_fdiv_two m
  have hqle : m / 2 ≤ m := Nat.div_le_self m 2
  refine ⟨fun hlt => ?_, fun hle => ?_⟩
  · have hcond : ((df.nrows : Int)) > (m : Int) := by exact_mod_cast hlt
    have hsub : ((m : Int)) - ((m / 2 : Nat) : Int) = ((m - m / 2 : Nat) : Int) := by
      push_cast; omega
    have hpos : 0 < m - m / 2 := by omega
    have hrt : rowTruncate df (m : Int)
        = ({ df with rows :=
              df.rows.take (m / 2) ++ df.rows.drop (df.nrows - (m - m / 2)) },
           ["rows truncated to " ++ toString ((m : Int)) ++
            " (from " ++ toString df.nrows ++ ")"]) := by
      unfold rowTruncate
      rw [if_pos hcond, hq, hsub, pyHead_natCast, pyTail_natCast_pos _ hpos,
        show df.rows.length = df.nrows from rfl]
    have hlen : (rowTruncate df (m : Int)).1.nrows = m := by
      rw [hrt]
      show (df.rows.take (m / 2) ++ df.rows.drop (df.nrows - (m - m / 2))).length = m
      rw [List.length_append, List.length_take, List.length_drop]
      have : df.nrows = df.rows.length := rfl
      omega
    refine ⟨by rw [hrt], hlen, ?_, ?_⟩
    · unfold displayedDf
      rw [colTruncate_fst_nrows]
      exact hlen
    · unfold truncNotes
      rw [hrt]
      exact List.mem_append_left _ (List.mem_singleton_self _)
  · have hcond : ¬ ((df.nrows : Int) > (m : Int)) := by omega
    unfold rowTruncate
    rw [if_neg hcond]

/-- C6 witness: six rows with budget 5 keep the first 2 and last 3 rows,
display exactly 5 rows, and record the note. -/
theorem C6_row_truncation_policy_witness :
    (rowTruncate dfSixRows (5 : Int)).1.rows
        = dfSixRows.rows.take 2 ++ dfSixRows.rows.drop 3 ∧
    (displayedDf dfSixRows 5 12).nrows = 5 ∧
    "rows truncated to 5 (from 6)" ∈ truncNotes dfSixRows 5 12 := by
  have h := (C6_row_truncation_policy dfSixRows 5 12 (by decide)).1 (by decide)
  exact ⟨h.1, h.2.2.1, h.2.2.2⟩

/-- C7: with a positive column cap `mc` and duplicate-free column names,
a frame with more than `mc` columns keeps exactly the first `mc / 2` and
the last `mc - mc / 2` original columns in original relative order (the
deduplicating sort is the identity here), the kept count is `mc`, and
the note records the kept and original counts; with at most `mc` columns
nothing changes and no column note is recorded. -/
theorem C7_col_truncation_policy (df : DataFrame) (mc : Nat) (hmc : 0 < mc)
    (hnd : df.colNames.Nodup) :
    (mc < df.ncols →
      ((colTruncate df (mc : Int)).1).colNames
          = df.colNames.take (mc / 2) ++ df.colNames.drop (df.ncols - (mc - mc / 2)) ∧
      ((colTruncate df (mc : Int)).1).ncols = mc ∧
      ("columns truncated to " ++ toString mc ++
       " (from " ++ toString df.ncols ++ ")")
          ∈ (colTruncate df (mc : Int)).2) ∧
    (df.ncols ≤ mc → colTruncate df (mc : Int) = (df, [])) := by
  have hq := natCast_fdiv_two mc
  have hqle : mc / 2 ≤ mc := Nat.div_le_self mc 2
  refine ⟨fun hlt => ?_, fun hle => ?_⟩
  · have hcond : ((df.ncols : Int)) > (mc : Int) := by exact_mod_cast hlt
    have hsub : ((mc : Int)) - ((mc / 2 : Nat) : Int) = ((mc - mc / 2 : Nat) : Int) := by
      push_cast; omega
    have hpos : 0 < mc - mc / 2 := by omega
    have had : mc / 2 ≤ df.ncols - (mc - mc / 2) := by omega
    have hkeep := filter_contains_take_drop df.colNames hnd
      (mc / 2) (df.ncols - (mc - mc / 2)) had
    have hklen : (df.colNames.take (mc / 2) ++
        df.colNames.drop (df.ncols - (mc - mc / 2))).length = mc := by
      rw [List.length_append, List.length_take, List.length_drop]
      have : df.ncols = df.colNames.length := rfl
      omega
    have hct : colTruncate df (mc : Int)
        = (selectColsBy df
            (fun c => (df.colNames.take (mc / 2) ++
              df.colNames.drop (df.ncols - (mc - mc / 2))).contains c),
           ["columns truncated to " ++ toString mc ++
            " (from " ++ toString df.ncols ++ ")"]) := by
      simp only [colTruncate]
      rw [if_pos hcond, hq, hsub, pyHead_natCast, pySliceFrom_neg_natCast _ hpos,
        show df.colNames.length = df.ncols from rfl, hkeep, hklen]
    refine ⟨?_, ?_, ?_⟩
    · rw [hct]
      show df.colNames.filter _ = _
      exact hkeep
    · rw [hct]
      show (df.colNames.filter _).length = mc
      rw [hkeep]
      exact hklen
    · rw [hct]
      exact List.mem_singleton_self _
  · have hcond : ¬ ((df.ncols : Int) > (mc : Int)) := by omega
    unfold colTruncate
    rw [if_neg hcond]

/-- C7 witness: fifteen distinct columns with cap 12 keep the first 6
and last 6 columns, twelve in all, and record the note. -/
theorem C7_col_truncation_policy_witness :
    ((colTruncate dfWide15 (12 : Int)).1).colNames
        = dfWide15.colNames.take 6 ++ dfWide15.colNames.drop 9 ∧
    ((colTruncate dfWide15 (12 : Int)).1).ncols = 12 ∧
    "columns truncated to 12 (from 15)" ∈ (colTruncate dfWide15 (12 : Int)).2 := by
  have h := (C7_col_truncation_policy dfWide15 12 (by decide) (by decide)).1 (by decide)
  exact ⟨h.1, h.2.1, h.2.2⟩

/-- C8: with an explicit row budget, a nonempty frame and a successful
render, the returned string is the note header
`"Note: Data truncated (" ++ notes joined by "; " ++ ").\n\n"` followed
by the table when any note was recorded, and the bare table otherwise;
the note list is the row notes followed by the column notes. -/
theorem C8_truncation_note_format (render : DataFrame → Option String)
    (df : DataFrame) (mr mc : Int) (sd ed : Option String) (table : String)
    (hne : df.empty = false)
    (hr : render (displayedDf df mr mc) = some table) :
    truncNotes df mr mc
        = (rowTruncate df mr).2 ++ (colTruncate (rowTruncate df mr).1 mc).2 ∧
    format_df_to_markdown render df (some mr) mc sd ed
      = Except.ok (if (truncNotes df mr mc).isEmpty then table
          else "Note: Data truncated (" ++
            String.intercalate "; " (truncNotes df mr mc) ++ ").\n\n" ++ table) := by
  refine ⟨rfl, ?_⟩
  unfold format_df_to_markdown formatResolved
  simp [hne, hr]

/-- C8 witness: six rows with budget 5 produce the annotated table. -/
theorem C8_truncation_note_format_witness :
    format_df_to_markdown constRenderT dfSixRows (some 5) 12 none none
      = Except.ok "Note: Data truncated (rows truncated to 5 (from 6)).\n\nT" := by
  have h := (C8_truncation_note_format constRenderT dfSixRows 5 12 none none
    "T" rfl rfl).2
  rw [h]
  rfl

/-- C9: when rendering the (possibly truncated) frame fails, the
formatter returns exactly the sentinel string and no exception reaches
the caller. -/
theorem C9_render_failure_sentinel (render : DataFrame → Option String)
    (df : DataFrame) (mr mc : Int) (sd ed : Option String)
    (hne : df.empty = false)
    (hr : render (displayedDf df mr mc) = none) :
    format_df_to_markdown render df (some mr) mc sd ed
      = Except.ok "Error: Could not format data into Markdown table." := by
  unfold format_df_to_markdown formatResolved
  simp [hne, hr]

/-- C9 witness: a renderer that always fails yields the sentinel. -/
theorem C9_render_failure_sentinel_witness :
    format_df_to_markdown noneRender dfSixRows (some 5) 12 none none
      = Except.ok "Error: Could not format data into Markdown table." :=
  C9_render_failure_sentinel noneRender dfSixRows 5 12 none none rfl rfl

/-- C10: a frame with no columns is `empty` even when its row index is
not, so it takes the same no-data path as a zero-row frame. -/
theorem C10_zero_cols_sentinel (render : DataFrame → Option String) (df : DataFrame)
    (max_rows : Option Int) (max_cols : Int) (sd ed : Option String)
    (h : df.colNames = []) (hr : df.rows ≠ []) :
    format_df_to_markdown render df max_rows max_cols sd ed
      = Except.ok "(No data available to display)" := by
  unfold format_df_to_markdown
  simp [DataFrame.empty, h]

/-- C10 witness: two empty rows, zero columns. -/
theorem C10_zero_cols_sentinel_witness :
    format_df_to_markdown constRenderT dfNoCols (some 3) 12 none none
      = Except.ok "(No data available to display)" :=
  C10_zero_cols_sentinel constRenderT dfNoCols (some 3) 12 none none rfl (by decide)

end AShare
